import Mathlib

/-!
# ClickApply: the simulated authentication and profile store

A shallow embedding of `src/App/main.js`: the `AuthService` object (lines 16-112)
and the usage bar of the dashboard (lines 278-311).

`localStorage` is a value that is passed in and handed back.  Only the two keys
`clickApply_users` and `clickApply_session` are ever touched, so the storage is a
record with one item per key.  An item records what `getItem` followed by the
truthiness test and `JSON.parse` meets under the key: nothing, the empty string,
text that `JSON.parse` rejects, or the text `JSON.stringify v` of a value `v` of
the data model, which `JSON.parse` reads back as `v`.

A call returns the pair of its outcome and the storage it leaves behind; the
outcome is `Except.error` when the JavaScript throws, and the writes made before
the throw stay in the storage.
-/

namespace ClickApply

/-! ## Data model -/

/-- The `usage` object of a user record. -/
structure Usage where
  daily : Int
  weekly : Int
  monthly : Int
deriving DecidableEq

/-- The user record built by the object literal of `register` (lines 36-46). -/
structure User where
  id : String
  fullName : String
  email : String
  password : String
  profileCompleted : Bool
  jobType : String
  bio : String
  usage : Usage
  applications : List String
deriving DecidableEq

/-- The argument `data` of `updateProfile`: for each key of a user record either
no entry (`none`) or the value that the spread writes over the old one. -/
structure ProfileData where
  id : Option String := none
  fullName : Option String := none
  email : Option String := none
  password : Option String := none
  profileCompleted : Option Bool := none
  jobType : Option String := none
  bio : Option String := none
  usage : Option Usage := none
  applications : Option (List String) := none
deriving DecidableEq

/-- What is stored under one key of `localStorage`. -/
inductive Item (α : Type) where
  /-- the key is not set: `getItem` returns `null` -/
  | missing : Item α
  /-- the key holds the empty string, which is falsy -/
  | emptyString : Item α
  /-- the key holds non-empty text that is not JSON: `JSON.parse` throws -/
  | invalidJSON : Item α
  /-- the key holds `JSON.stringify v` -/
  | json (v : α) : Item α
deriving DecidableEq

/-- The part of `localStorage` the program uses. -/
structure LocalStorage where
  /-- key `DB_KEY_USERS = 'clickApply_users'` -/
  users : Item (List User)
  /-- key `DB_KEY_SESSION = 'clickApply_session'` -/
  session : Item User
deriving DecidableEq

/-- The exceptions the modelled code can throw. -/
inductive JSError where
  /-- the `SyntaxError` of `JSON.parse` -/
  | syntaxError : JSError
deriving DecidableEq

deriving instance DecidableEq for Except

/-- The object returned by `register` and `login`:
`{ success: true, user }` or `{ success: false, message }`. -/
inductive AuthResult where
  | success (user : User) : AuthResult
  | failure (message : String) : AuthResult
deriving DecidableEq

/-! ## Array helpers -/

/-- `Array.prototype.findIndex`: the position of the first element satisfying `p`;
`none` stands for `-1`. -/
def findIndex {α : Type} (p : α → Bool) : List α → Option Nat
  | [] => none
  | x :: xs => if p x then some 0 else (findIndex p xs).map (· + 1)

/-! ## AuthService -/

/-- `users ? JSON.parse(users) : []` (lines 20-23). -/
def getUsers (ls : LocalStorage) : Except JSError (List User) :=
  match ls.users with
  | .missing => .ok []
  | .emptyString => .ok []
  | .invalidJSON => .error .syntaxError
  | .json users => .ok users

/-- `Date.now().toString()`: the decimal rendering of the millisecond clock. -/
def freshId (now : Nat) : String := toString now

/-- The object literal of lines 36-46. -/
def newUser (now : Nat) (fullName email password : String) : User :=
  { id := freshId now
    fullName := fullName
    email := email
    password := password
    profileCompleted := false
    jobType := ""
    bio := ""
    usage := { daily := 0, weekly := 0, monthly := 0 }
    applications := [] }

/-- `AuthService.register` (lines 28-51); `now` is the value of `Date.now()`. -/
def register (now : Nat) (fullName email password : String) (ls : LocalStorage) :
    Except JSError AuthResult × LocalStorage :=
  match getUsers ls with
  | .error e => (.error e, ls)
  | .ok users =>
    match users.find? (fun u => u.email == email) with
    | some _ => (.ok (.failure "Email already registered."), ls)
    | none =>
      let user := newUser now fullName email password
      (.ok (.success user), { ls with users := .json (users ++ [user]) })

/-- `AuthService.login` (lines 56-65). -/
def login (email password : String) (ls : LocalStorage) :
    Except JSError AuthResult × LocalStorage :=
  match getUsers ls with
  | .error e => (.error e, ls)
  | .ok users =>
    match users.find? (fun u => u.email == email && u.password == password) with
    | some user => (.ok (.success user), { ls with session := .json user })
    | none => (.ok (.failure "Invalid email or password."), ls)

/-- `session ? JSON.parse(session) : null` (lines 70-73). -/
def getCurrentUser (ls : LocalStorage) : Except JSError (Option User) :=
  match ls.session with
  | .missing => .ok none
  | .emptyString => .ok none
  | .invalidJSON => .error .syntaxError
  | .json user => .ok (some user)

/-- The spread `{ ...currentUser, ...data }` of line 83. -/
def merge (currentUser : User) (data : ProfileData) : User :=
  { id := data.id.getD currentUser.id
    fullName := data.fullName.getD currentUser.fullName
    email := data.email.getD currentUser.email
    password := data.password.getD currentUser.password
    profileCompleted := data.profileCompleted.getD currentUser.profileCompleted
    jobType := data.jobType.getD currentUser.jobType
    bio := data.bio.getD currentUser.bio
    usage := data.usage.getD currentUser.usage
    applications := data.applications.getD currentUser.applications }

/-- `AuthService.updateProfile` (lines 78-94). -/
def updateProfile (data : ProfileData) (ls : LocalStorage) :
    Except JSError Bool × LocalStorage :=
  match getCurrentUser ls with
  | .error e => (.error e, ls)
  | .ok none => (.ok false, ls)
  | .ok (some user) =>
    let currentUser := merge user data
    let ls1 : LocalStorage := { ls with session := .json currentUser }
    match getUsers ls1 with
    | .error e => (.error e, ls1)
    | .ok users =>
      match findIndex (fun u => u.id == currentUser.id) users with
      | some index => (.ok true, { ls1 with users := .json (users.set index currentUser) })
      | none => (.ok true, ls1)

/-! ## Numbers

The usage bar divides and multiplies values of the JavaScript Number type, which
are IEEE 754 binary64.  Only positive finite values occur where the arithmetic is
reached, and they are written `mant * 2 ^ exp`.  An operation rounds its exact
result to 53 significant bits, ties to even; overflow and subnormal results lie
far outside what `(daily / 5) * 100` reaches for an integer counter and are not
modelled. -/

/-- A non-negative finite Number: the value `mant * 2 ^ exp`. -/
structure Number where
  mant : Nat
  exp : Int
deriving DecidableEq

/-- The numerator of `mant * 2 ^ exp` over the denominator `Number.den`. -/
def Number.num (x : Number) : Nat :=
  if 0 ≤ x.exp then x.mant * 2 ^ x.exp.toNat else x.mant

/-- The denominator of `mant * 2 ^ exp`: a power of two. -/
def Number.den (x : Number) : Nat :=
  if 0 ≤ x.exp then 1 else 2 ^ (-x.exp).toNat

/-- The rational number a Number stands for. -/
def Number.toRat (x : Number) : ℚ := x.mant * 2 ^ x.exp

/-- The integer `n` as a Number (exact below `2 ^ 53`). -/
def Number.ofNat (n : Nat) : Number := { mant := n, exp := 0 }

/-- Halving `n` until it is below 2, counting the steps. -/
def log2Aux : Nat → Nat → Nat
  | 0, _ => 0
  | fuel + 1, n => if n < 2 then 0 else log2Aux fuel (n / 2) + 1

/-- The position of the leading binary digit of `n`. -/
def floorLog2 (n : Nat) : Nat := log2Aux n n

/-- The fraction `num / den` divided by `2 ^ e`, as a numerator and a denominator. -/
def scale (num den : Nat) (e : Int) : Nat × Nat :=
  if 0 ≤ e then (num, den * 2 ^ e.toNat) else (num * 2 ^ (-e).toNat, den)

/-- The binary64 value nearest to the positive fraction `num / den`, ties to even:
the exponent `e` is chosen so that `num / den / 2 ^ e` lies in `[2 ^ 52, 2 ^ 53)`,
and that quotient is rounded to an integer. -/
def roundBinary64 (num den : Nat) : Number :=
  if num = 0 then { mant := 0, exp := 0 } else
  let e0 : Int := (floorLog2 num : Int) - (floorLog2 den : Int) - 52
  let e : Int := if (scale num den e0).1 / (scale num den e0).2 < 2 ^ 52 then e0 - 1 else e0
  let n := (scale num den e).1
  let d := (scale num den e).2
  let q := n / d
  let r := n % d
  if d < 2 * r ∨ (2 * r = d ∧ q % 2 = 1) then { mant := q + 1, exp := e }
  else { mant := q, exp := e }

/-- The operator `/` on Numbers. -/
def Number.div (x y : Number) : Number := roundBinary64 (x.num * y.den) (x.den * y.num)

/-- The operator `*` on Numbers. -/
def Number.mul (x y : Number) : Number := roundBinary64 (x.num * y.num) (x.den * y.den)

/-! ## Dashboard usage bar -/

/-- What the dashboard writes into the first usage card, given by the two numbers
the template literals of lines 307-308 interpolate; how a Number is rendered as
text is not modelled. -/
structure UsageBar where
  /-- `percent` in the width `percent%` of the bar (line 307) -/
  width : Number
  /-- `user.usage.daily` in the text under the bar, which ends in
  `of 5 applications used` (line 308) -/
  used : Int
deriving DecidableEq

/-- `(user.usage.daily / 5) * 100` (line 306), reached for a positive counter only;
`daily` is the integer that the Number `user.usage.daily` holds. -/
def percent (daily : Int) : Number :=
  ((Number.ofNat daily.toNat).div (Number.ofNat 5)).mul (Number.ofNat 100)

/-- Lines 300-310: `usage` is `user.usage`, `none` when the record has no such key;
`dailyBar` and `dailyText` tell whether `querySelector` found the two elements.
The result is what is written into the card, `none` when nothing is written. -/
def usageBar (usage : Option Usage) (dailyBar dailyText : Bool) : Option UsageBar :=
  match usage with
  | none => none
  | some usage =>
    if dailyBar && dailyText && decide (usage.daily > 0) then
      some { width := percent usage.daily
             used := usage.daily }
    else none

/-- The usage part of the dashboard logic (lines 278-311): the session record is
read and its usage counters drive the first usage card. -/
def dashboardUsage (ls : LocalStorage) (dailyBar dailyText : Bool) :
    Except JSError (Option UsageBar) :=
  match getCurrentUser ls with
  | .error e => .error e
  | .ok none => .ok none
  | .ok (some user) => .ok (usageBar (some user.usage) dailyBar dailyText)

/-! ## Sample stores -/

/-- A storage in which nothing has been written yet. -/
def emptyStorage : LocalStorage := { users := .missing, session := .missing }

/-- The record of a first registration at clock value 1000. -/
def alice : User := newUser 1000 "Alice Ames" "alice@x.com" "alicepw"

/-- The record of a second registration within the same millisecond. -/
def bob : User := newUser 1000 "Bob Budd" "bob@x.com" "bobpw"

/-- The record of a registration one millisecond later. -/
def carol : User := newUser 1001 "Carol Cole" "carol@x.com" "carolpw"

/-- The storage after Alice has registered. -/
def aliceStorage : LocalStorage :=
  (register 1000 "Alice Ames" "alice@x.com" "alicepw" emptyStorage).2

/-- The storage after Alice and Bob have registered within the same millisecond. -/
def twinStorage : LocalStorage :=
  (register 1000 "Bob Budd" "bob@x.com" "bobpw" aliceStorage).2

/-- The storage after Alice and, one millisecond later, Carol have registered. -/
def carolStorage : LocalStorage :=
  (register 1001 "Carol Cole" "carol@x.com" "carolpw" aliceStorage).2

/-- The storage after Alice has registered and logged in. -/
def aliceSession : LocalStorage := (login "alice@x.com" "alicepw" aliceStorage).2

/-- A storage whose users key holds text that is not JSON, such as `oops`. -/
def brokenStorage : LocalStorage := { users := .invalidJSON, session := .missing }

/-! ## Registration and login -/

/-- The run of `register` when no record carries the email. -/
lemma register_of_find_none {now : Nat} {fullName email password : String}
    {ls : LocalStorage} {users : List User} (hUsers : getUsers ls = .ok users)
    (hFind : users.find? (fun u => u.email == email) = none) :
    register now fullName email password ls
      = (.ok (.success (newUser now fullName email password)),
          { ls with users := .json (users ++ [newUser now fullName email password]) }) := by
  simp only [register, hUsers, hFind]

/-- The run of `register` when some record carries the email. -/
lemma register_of_find_some {now : Nat} {fullName email password : String}
    {ls : LocalStorage} {users : List User} {found : User}
    (hUsers : getUsers ls = .ok users)
    (hFind : users.find? (fun u => u.email == email) = some found) :
    register now fullName email password ls
      = (.ok (.failure "Email already registered."), ls) := by
  simp only [register, hUsers, hFind]

/-- The run of `login` when no record matches. -/
lemma login_of_find_none {email password : String} {ls : LocalStorage} {users : List User}
    (hUsers : getUsers ls = .ok users)
    (hFind : users.find? (fun u => u.email == email && u.password == password) = none) :
    login email password ls = (.ok (.failure "Invalid email or password."), ls) := by
  simp only [login, hUsers, hFind]

/-- The run of `login` when a record matches. -/
lemma login_of_find_some {email password : String} {ls : LocalStorage} {users : List User}
    {user : User} (hUsers : getUsers ls = .ok users)
    (hFind : users.find? (fun u => u.email == email && u.password == password) = some user) :
    login email password ls = (.ok (.success user), { ls with session := .json user }) := by
  simp only [login, hUsers, hFind]

/-- Writing the users item makes `getUsers` read it back. -/
lemma getUsers_json (users : List User) (session : Item User) :
    getUsers { users := .json users, session := session } = .ok users := rfl

/-- Writing the session item makes `getCurrentUser` read it back. -/
lemma getCurrentUser_json (users : Item (List User)) (user : User) :
    getCurrentUser { users := users, session := .json user } = .ok (some user) := rfl

/-- C1: when the user collection is `users` and none of its records has exactly the
given email, `register` succeeds with a record that carries the given full name,
email and password, `profileCompleted = false`, zeroed usage counters and no
applications; afterwards the user collection is `users` with that record appended
at the end and the session item is untouched. -/
theorem register_appends_new_record (now : Nat) (fullName email password : String)
    (ls : LocalStorage) (users : List User) (hUsers : getUsers ls = .ok users)
    (hEmail : ∀ u ∈ users, u.email ≠ email) :
    ∃ user : User,
      (register now fullName email password ls).1 = .ok (.success user) ∧
      user.fullName = fullName ∧ user.email = email ∧ user.password = password ∧
      user.profileCompleted = false ∧
      user.usage.daily = 0 ∧ user.usage.weekly = 0 ∧ user.usage.monthly = 0 ∧
      user.applications = [] ∧
      getUsers (register now fullName email password ls).2 = .ok (users ++ [user]) ∧
      (register now fullName email password ls).2.session = ls.session := by
  have hFind : users.find? (fun u => u.email == email) = none := by
    rw [List.find?_eq_none]
    intro u hu
    simpa using hEmail u hu
  rw [register_of_find_none hUsers hFind]
  exact ⟨newUser now fullName email password, rfl, rfl, rfl, rfl, rfl, rfl, rfl, rfl, rfl, rfl, rfl⟩

/-- C2: when some record of the user collection has exactly the given email,
`register` fails with the duplicate-email message whatever the full name and the
password are, and the storage, hence the user collection, is left as it was. -/
theorem register_duplicate_email (now : Nat) (fullName email password : String)
    (ls : LocalStorage) (users : List User) (hUsers : getUsers ls = .ok users)
    (hDup : ∃ u ∈ users, u.email = email) :
    register now fullName email password ls
        = (.ok (.failure "Email already registered."), ls) ∧
      getUsers (register now fullName email password ls).2 = .ok users := by
  obtain ⟨u, hu, hue⟩ := hDup
  have hFind : (users.find? (fun u => u.email == email)).isSome := by
    rw [List.find?_isSome]
    exact ⟨u, hu, by simpa using hue⟩
  obtain ⟨v, hv⟩ := Option.isSome_iff_exists.mp hFind
  rw [register_of_find_some hUsers hv]
  exact ⟨rfl, hUsers⟩

/-- C3: when no record of the user collection matches both the email and the
password, `login` fails with the invalid-credentials message and leaves the
storage as it was: the session item, absent or present, and the user collection
are the same after the call as before. -/
theorem login_invalid_credentials (email password : String) (ls : LocalStorage)
    (users : List User) (hUsers : getUsers ls = .ok users)
    (hNone : ∀ u ∈ users, ¬ (u.email = email ∧ u.password = password)) :
    login email password ls = (.ok (.failure "Invalid email or password."), ls) ∧
      (login email password ls).2.session = ls.session ∧
      getUsers (login email password ls).2 = .ok users := by
  have hFind : users.find? (fun u => u.email == email && u.password == password) = none := by
    rw [List.find?_eq_none]
    intro u hu
    simpa using hNone u hu
  rw [login_of_find_none hUsers hFind]
  exact ⟨rfl, rfl, hUsers⟩

/-- C4: when `register` succeeds with the record `user`, a `login` with the same
email and password right after it succeeds and returns a record whose id is the
id of `user` (it is `user` itself), and `getCurrentUser` then returns that same
record. -/
theorem login_after_register (now : Nat) (fullName email password : String)
    (ls : LocalStorage) (user : User)
    (hReg : (register now fullName email password ls).1 = .ok (.success user)) :
    ∃ r : User,
      (login email password (register now fullName email password ls).2).1
        = .ok (.success r) ∧
      r.id = user.id ∧ r = user ∧
      getCurrentUser (login email password (register now fullName email password ls).2).2
        = .ok (some r) := by
  cases hUsers : getUsers ls with
  | error e => simp [register, hUsers] at hReg
  | ok users =>
    cases hFind : users.find? (fun u => u.email == email) with
    | some found => simp [register_of_find_some hUsers hFind] at hReg
    | none =>
      rw [register_of_find_none hUsers hFind] at hReg ⊢
      have hUser : newUser now fullName email password = user := by
        simpa using hReg
      have hNoMatch :
          users.find? (fun u => u.email == email && u.password == password) = none := by
        rw [List.find?_eq_none] at hFind ⊢
        intro u hu
        have := hFind u hu
        simp only [Bool.and_eq_true, not_and]
        intro h
        exact absurd h this
      have hLogin :
          (users ++ [newUser now fullName email password]).find?
              (fun u => u.email == email && u.password == password)
            = some (newUser now fullName email password) := by
        rw [List.find?_append, hNoMatch]
        simp [newUser]
      rw [login_of_find_some (getUsers_json _ _) hLogin]
      exact ⟨newUser now fullName email password, rfl, by rw [hUser], hUser, rfl⟩

/-! ## Profile updates -/

/-- The run of `updateProfile` when there is no session. -/
lemma updateProfile_of_no_session {data : ProfileData} {ls : LocalStorage}
    (hSession : getCurrentUser ls = .ok none) :
    updateProfile data ls = (.ok false, ls) := by
  simp only [updateProfile, hSession]

/-- The users item is not touched by a write to the session item. -/
lemma getUsers_session_write (ls : LocalStorage) (item : Item User) :
    getUsers { ls with session := item } = getUsers ls := rfl

/-- The run of `updateProfile` when the session holds `user` and the user collection
holds a record with the id of the merged record. -/
lemma updateProfile_of_index {data : ProfileData} {ls : LocalStorage} {user : User}
    {users : List User} {index : Nat}
    (hSession : getCurrentUser ls = .ok (some user)) (hUsers : getUsers ls = .ok users)
    (hIndex : findIndex (fun u => u.id == (merge user data).id) users = some index) :
    updateProfile data ls
      = (.ok true, { users := .json (users.set index (merge user data)),
                     session := .json (merge user data) }) := by
  simp only [updateProfile, hSession, getUsers_session_write, hUsers, hIndex]

/-- The run of `updateProfile` when the session holds `user` and no record of the user
collection has the id of the merged record. -/
lemma updateProfile_of_no_index {data : ProfileData} {ls : LocalStorage} {user : User}
    {users : List User}
    (hSession : getCurrentUser ls = .ok (some user)) (hUsers : getUsers ls = .ok users)
    (hIndex : findIndex (fun u => u.id == (merge user data).id) users = none) :
    updateProfile data ls = (.ok true, { ls with session := .json (merge user data) }) := by
  simp only [updateProfile, hSession, getUsers_session_write, hUsers, hIndex]

/-- The run of `updateProfile` when the session holds `user` and the users item is
not JSON: the session is written before `JSON.parse` throws. -/
lemma updateProfile_of_users_error {data : ProfileData} {ls : LocalStorage} {user : User}
    {e : JSError}
    (hSession : getCurrentUser ls = .ok (some user)) (hUsers : getUsers ls = .error e) :
    updateProfile data ls = (.error e, { ls with session := .json (merge user data) }) := by
  simp only [updateProfile, hSession, getUsers_session_write, hUsers]

/-- The element `find?` returns sits at the position `findIndex` returns. -/
lemma findIndex_of_find {α : Type} {p : α → Bool} {a : α} :
    ∀ {l : List α}, l.find? p = some a → ∃ j, findIndex p l = some j ∧ l[j]? = some a
  | [], h => by simp at h
  | x :: xs, h => by
    by_cases hx : p x
    · refine ⟨0, by simp [findIndex, hx], ?_⟩
      simpa [List.find?, hx] using h
    · have h2 : xs.find? p = some a := by simpa [List.find?, hx] using h
      obtain ⟨j, hj, hja⟩ := findIndex_of_find h2
      exact ⟨j + 1, by simp [findIndex, hx, hj], by simpa using hja⟩

/-- The record at the position `findIndex` returns satisfies the predicate. -/
lemma findIndex_some_spec {α : Type} {p : α → Bool} :
    ∀ {l : List α} {j : Nat}, findIndex p l = some j → ∃ a, l[j]? = some a ∧ p a = true
  | [], j, h => by simp [findIndex] at h
  | x :: xs, j, h => by
    by_cases hx : p x
    · have hj : j = 0 := by simpa [findIndex, hx] using h.symm
      subst hj
      exact ⟨x, by simp, hx⟩
    · simp only [findIndex, hx, Bool.false_eq_true, if_false, Option.map_eq_some'] at h
      obtain ⟨i, hi, rfl⟩ := h
      obtain ⟨a, ha, hpa⟩ := findIndex_some_spec hi
      exact ⟨a, by simpa using ha, hpa⟩

/-- Overwriting the record found by id with a record of that id keeps every id. -/
lemma map_id_set_of_findIndex {users : List User} {current : User} {index : Nat}
    (hIndex : findIndex (fun u => u.id == current.id) users = some index) :
    (users.set index current).map User.id = users.map User.id := by
  obtain ⟨a, ha, hid⟩ := findIndex_some_spec hIndex
  have haid : a.id = current.id := by simpa using hid
  apply List.ext_getElem?
  intro n
  rw [List.map_set, List.getElem?_set]
  by_cases hn : index = n
  · subst hn
    have hlt : index < users.length := by
      by_contra hge
      rw [List.getElem?_eq_none (Nat.le_of_not_lt hge)] at ha
      cases ha
    have hget : users[index] = a := by
      have := List.getElem?_eq_getElem hlt
      rw [ha] at this
      exact (Option.some.inj this).symm
    simp [hlt, hget, haid]
  · simp [hn]

/-- When ids are pairwise distinct, the first record carrying the id of the record
`find?` returns is that record. -/
lemma findIndex_id_of_nodup {p : User → Bool} {user : User} :
    ∀ {users : List User}, (users.map User.id).Nodup → users.find? p = some user →
      findIndex (fun u => u.id == user.id) users = findIndex p users
  | [], _, h => by simp at h
  | x :: xs, hNodup, h => by
    by_cases hx : p x
    · have hxu : x = user := by simpa [List.find?, hx] using h
      subst hxu
      simp [findIndex, hx]
    · have h2 : xs.find? p = some user := by simpa [List.find?, hx] using h
      have hmem : user ∈ xs := List.mem_of_find?_eq_some h2
      rw [List.map_cons, List.nodup_cons] at hNodup
      have hne : x.id ≠ user.id := by
        intro heq
        apply hNodup.1
        rw [heq]
        exact List.mem_map_of_mem _ hmem
      have ih := findIndex_id_of_nodup hNodup.2 h2
      simp [findIndex, hx, hne, ih]

/-- C5, amended: when `login` succeeds with the record `user` and the first record of
the user collection that carries the id of `user` is the record `login` matched
(position `j`), `updateProfile` with the single entry `bio = x` right after that
login returns `true`; afterwards the session record is `user` with `bio = x` and
every other field as before, and the entry at position `j` of the user collection
is that same record, all other entries being untouched. -/
theorem updateProfile_bio_after_login (email password x : String) (ls : LocalStorage)
    (users : List User) (user : User) (hUsers : getUsers ls = .ok users)
    (hLogin : (login email password ls).1 = .ok (.success user))
    (hFirst : findIndex (fun u => u.id == user.id) users
      = findIndex (fun u => u.email == email && u.password == password) users) :
    ∃ j : Nat,
      findIndex (fun u => u.email == email && u.password == password) users = some j ∧
      users[j]? = some user ∧
      (updateProfile { bio := some x } (login email password ls).2).1 = .ok true ∧
      getCurrentUser (updateProfile { bio := some x } (login email password ls).2).2
        = .ok (some { user with bio := x }) ∧
      getUsers (updateProfile { bio := some x } (login email password ls).2).2
        = .ok (users.set j { user with bio := x }) ∧
      (users.set j { user with bio := x })[j]? = some { user with bio := x } := by
  cases hFind : users.find? (fun u => u.email == email && u.password == password) with
  | none => simp [login_of_find_none hUsers hFind] at hLogin
  | some found =>
    rw [login_of_find_some hUsers hFind] at hLogin ⊢
    have hFound : found = user := by simpa using hLogin
    subst hFound
    obtain ⟨j, hj, hjUser⟩ := findIndex_of_find hFind
    have hMerge : merge found { bio := some x } = { found with bio := x } := rfl
    have hIndex : findIndex (fun u => u.id == (merge found { bio := some x }).id) users
        = some j := by
      rw [hMerge, ← hj, ← hFirst]
    have hRun := updateProfile_of_index (getCurrentUser_json ls.users found)
      ((getUsers_session_write ls (.json found)).trans hUsers) hIndex
    rw [hRun, hMerge]
    refine ⟨j, hj, hjUser, rfl, rfl, rfl, ?_⟩
    have hlt : j < users.length := by
      by_contra hge
      rw [List.getElem?_eq_none (Nat.le_of_not_lt hge)] at hjUser
      cases hjUser
    simp [List.getElem?_set, hlt]

/-- C6: when there is no session record, `updateProfile` returns `false` for every
argument and leaves the storage as it was: the user collection is unchanged and
the session stays absent. -/
theorem updateProfile_without_session (data : ProfileData) (ls : LocalStorage)
    (hSession : getCurrentUser ls = .ok none) :
    updateProfile data ls = (.ok false, ls) ∧
      getUsers (updateProfile data ls).2 = getUsers ls ∧
      getCurrentUser (updateProfile data ls).2 = .ok none := by
  rw [updateProfile_of_no_session hSession]
  exact ⟨rfl, rfl, hSession⟩

/-- C7, amended: when `register` succeeds at clock value `now` and no record of the
user collection has the decimal rendering of `now` as its id, the id of the new
record differs from the id of every record already there; hence pairwise
distinct ids stay pairwise distinct. -/
theorem register_id_fresh (now : Nat) (fullName email password : String)
    (ls : LocalStorage) (users : List User) (user : User)
    (hUsers : getUsers ls = .ok users)
    (hReg : (register now fullName email password ls).1 = .ok (.success user))
    (hClock : ∀ u ∈ users, u.id ≠ freshId now) :
    user.id = freshId now ∧
      (∀ u ∈ users, u.id ≠ user.id) ∧
      getUsers (register now fullName email password ls).2 = .ok (users ++ [user]) ∧
      ((users.map User.id).Nodup → ((users ++ [user]).map User.id).Nodup) := by
  cases hFind : users.find? (fun u => u.email == email) with
  | some found => simp [register_of_find_some hUsers hFind] at hReg
  | none =>
    rw [register_of_find_none hUsers hFind] at hReg ⊢
    have hUser : newUser now fullName email password = user := by simpa using hReg
    subst hUser
    refine ⟨rfl, hClock, rfl, ?_⟩
    intro hNodup
    rw [List.map_append, List.nodup_append]
    refine ⟨hNodup, by simp, ?_⟩
    intro a ha hb
    simp only [List.map_cons, List.map_nil, List.mem_singleton] at hb
    obtain ⟨u, hu, rfl⟩ := List.mem_map.mp ha
    exact hClock u hu hb

/-- C8, amended: when the session holds `user`, `updateProfile` leaves the id of every
record of the user collection as it was, whatever its argument is; and when the
argument has no `id` entry, or one equal to the id of `user`, the id of the
session record after the update is its id before. -/
theorem updateProfile_keeps_ids (data : ProfileData) (ls : LocalStorage) (user : User)
    (hSession : getCurrentUser ls = .ok (some user)) :
    Except.map (List.map User.id) (getUsers (updateProfile data ls).2)
        = Except.map (List.map User.id) (getUsers ls) ∧
      (data.id = none ∨ data.id = some user.id →
        ∃ after : User,
          getCurrentUser (updateProfile data ls).2 = .ok (some after) ∧
          after.id = user.id) := by
  have hId : data.id = none ∨ data.id = some user.id → (merge user data).id = user.id := by
    intro h
    rcases h with h | h <;> simp [merge, h]
  cases hUsers : getUsers ls with
  | error e =>
    rw [updateProfile_of_users_error hSession hUsers]
    exact ⟨by rw [getUsers_session_write, hUsers], fun h => ⟨_, rfl, hId h⟩⟩
  | ok users =>
    cases hIndex : findIndex (fun u => u.id == (merge user data).id) users with
    | none =>
      rw [updateProfile_of_no_index hSession hUsers hIndex]
      exact ⟨by rw [getUsers_session_write, hUsers], fun h => ⟨_, rfl, hId h⟩⟩
    | some index =>
      rw [updateProfile_of_index hSession hUsers hIndex]
      refine ⟨?_, fun h => ⟨_, rfl, hId h⟩⟩
      rw [getUsers_json]
      simp only [Except.map]
      rw [map_id_set_of_findIndex hIndex]

/-- C9, amended: `getUsers` returns the empty sequence when the users key is not set
or holds the empty string; on stored text that is not JSON it fails with the
`SyntaxError` of `JSON.parse`; on a stored user collection it returns that
collection. -/
theorem getUsers_cases (session : Item User) :
    getUsers { users := .missing, session := session } = .ok [] ∧
      getUsers { users := .emptyString, session := session } = .ok [] ∧
      getUsers { users := .invalidJSON, session := session } = .error .syntaxError ∧
      ∀ users : List User,
        getUsers { users := .json users, session := session } = .ok users :=
  ⟨rfl, rfl, rfl, fun _ => rfl⟩


/-! ## Dashboard -/

/-- The percentage is exact for the counters the card can show, one to five. -/
lemma percent_toRat_of_le_five (d : Int) (hPos : 0 < d) (hLe : d ≤ 5) :
    (percent d).toRat = d / 5 * 100 := by
  have hCases : d = 1 ∨ d = 2 ∨ d = 3 ∨ d = 4 ∨ d = 5 := by omega
  rcases hCases with h | h | h | h | h <;> subst h
  · have h : percent 1 = { mant := 5629499534213120, exp := -48 } := by decide
    rw [h]; norm_num [Number.toRat]
  · have h : percent 2 = { mant := 5629499534213120, exp := -47 } := by decide
    rw [h]; norm_num [Number.toRat]
  · have h : percent 3 = { mant := 8444249301319680, exp := -47 } := by decide
    rw [h]; norm_num [Number.toRat]
  · have h : percent 4 = { mant := 5629499534213120, exp := -46 } := by decide
    rw [h]; norm_num [Number.toRat]
  · have h : percent 5 = { mant := 7036874417766400, exp := -46 } := by decide
    rw [h]; norm_num [Number.toRat]

/-- The rounding of binary64 shows for larger counters: eleven does not give 220. -/
lemma percent_eleven : (percent 11).toRat = 220 + 1 / 2 ^ 45 := by
  have h : percent 11 = { mant := 7740561859543041, exp := -45 } := by decide
  rw [h]; norm_num [Number.toRat]

/-- Nothing is written into the usage card when the daily counter is not positive. -/
lemma usageBar_of_not_pos (usage : Usage) (dailyBar dailyText : Bool)
    (hDaily : usage.daily ≤ 0) : usageBar (some usage) dailyBar dailyText = none := by
  have : ¬ usage.daily > 0 := by omega
  simp [usageBar, this]

/-- C10, amended: when the session record has a positive daily counter `d` and the
bar and text elements of the first usage card are found, the dashboard writes the
binary64 value of `(d / 5) * 100` as the width percentage and puts the counter `d`
into the text under the bar; that value is exactly `(d / 5) * 100` for `d` up to
five, and it is 60 for `d = 3`. -/
theorem dashboard_daily_percent (ls : LocalStorage) (user : User)
    (hSession : getCurrentUser ls = .ok (some user)) (hDaily : 0 < user.usage.daily) :
    dashboardUsage ls true true
        = .ok (some { width := percent user.usage.daily
                      used := user.usage.daily }) ∧
      (user.usage.daily ≤ 5 →
        (percent user.usage.daily).toRat = user.usage.daily / 5 * 100) ∧
      (user.usage.daily = 3 → (percent user.usage.daily).toRat = 60) := by
  refine ⟨?_, fun hLe => percent_toRat_of_le_five _ hDaily hLe, fun h3 => ?_⟩
  · simp [dashboardUsage, hSession, usageBar, hDaily]
  · rw [percent_toRat_of_le_five _ hDaily (by omega), h3]
    norm_num

/-! ## Instances on the sample stores -/

/-- The sample stores, spelled out. -/
lemma sample_stores :
    aliceStorage = { users := .json [alice], session := .missing } ∧
      twinStorage = { users := .json [alice, bob], session := .missing } ∧
      carolStorage = { users := .json [alice, carol], session := .missing } ∧
      aliceSession = { users := .json [alice], session := .json alice } := by
  decide

/-- C1 at a concrete input: Carol registers after Alice. -/
theorem register_appends_new_record_witness :
    getUsers aliceStorage = .ok [alice] ∧
      (∀ u ∈ [alice], u.email ≠ "carol@x.com") ∧
      ∃ user : User,
        (register 1001 "Carol Cole" "carol@x.com" "carolpw" aliceStorage).1
          = .ok (.success user) ∧
        user.fullName = "Carol Cole" ∧ user.email = "carol@x.com" ∧
        user.password = "carolpw" ∧ user.profileCompleted = false ∧
        user.usage.daily = 0 ∧ user.usage.weekly = 0 ∧ user.usage.monthly = 0 ∧
        user.applications = [] ∧
        getUsers (register 1001 "Carol Cole" "carol@x.com" "carolpw" aliceStorage).2
          = .ok ([alice] ++ [user]) ∧
        (register 1001 "Carol Cole" "carol@x.com" "carolpw" aliceStorage).2.session
          = aliceStorage.session :=
  ⟨by decide, by decide,
    register_appends_new_record 1001 "Carol Cole" "carol@x.com" "carolpw" aliceStorage
      [alice] (by decide) (by decide)⟩

/-- C2 at a concrete input: a second registration with the email of Alice. -/
theorem register_duplicate_email_witness :
    getUsers aliceStorage = .ok [alice] ∧
      (∃ u ∈ [alice], u.email = "alice@x.com") ∧
      register 1001 "Alice Again" "alice@x.com" "other" aliceStorage
        = (.ok (.failure "Email already registered."), aliceStorage) ∧
      getUsers (register 1001 "Alice Again" "alice@x.com" "other" aliceStorage).2
        = .ok [alice] :=
  ⟨by decide, by decide,
    register_duplicate_email 1001 "Alice Again" "alice@x.com" "other" aliceStorage
      [alice] (by decide) (by decide)⟩

/-- C3 at a concrete input: a registered email with a wrong password. -/
theorem login_invalid_credentials_witness :
    getUsers aliceStorage = .ok [alice] ∧
      (∀ u ∈ [alice], ¬ (u.email = "alice@x.com" ∧ u.password = "wrong")) ∧
      login "alice@x.com" "wrong" aliceStorage
        = (.ok (.failure "Invalid email or password."), aliceStorage) ∧
      (login "alice@x.com" "wrong" aliceStorage).2.session = aliceStorage.session ∧
      getUsers (login "alice@x.com" "wrong" aliceStorage).2 = .ok [alice] :=
  ⟨by decide, by decide,
    login_invalid_credentials "alice@x.com" "wrong" aliceStorage [alice]
      (by decide) (by decide)⟩

/-- C4 at a concrete input: Carol registers after Alice and logs in. -/
theorem login_after_register_witness :
    (register 1001 "Carol Cole" "carol@x.com" "carolpw" aliceStorage).1
        = .ok (.success carol) ∧
      ∃ r : User,
        (login "carol@x.com" "carolpw"
            (register 1001 "Carol Cole" "carol@x.com" "carolpw" aliceStorage).2).1
          = .ok (.success r) ∧
        r.id = carol.id ∧ r = carol ∧
        getCurrentUser (login "carol@x.com" "carolpw"
            (register 1001 "Carol Cole" "carol@x.com" "carolpw" aliceStorage).2).2
          = .ok (some r) :=
  ⟨by decide,
    login_after_register 1001 "Carol Cole" "carol@x.com" "carolpw" aliceStorage carol
      (by decide)⟩

/-- C5 fails where two records share an id: Bob logs in and sets his bio, and the
update lands on the record of Alice, the first one with that id, while the entry
that `login` matched keeps its old bio. -/
theorem updateProfile_bio_counterexample :
    getUsers twinStorage = .ok [alice, bob] ∧
      (login "bob@x.com" "bobpw" twinStorage).1 = .ok (.success bob) ∧
      findIndex (fun u => u.email == "bob@x.com" && u.password == "bobpw") [alice, bob]
        = some 1 ∧
      (updateProfile { bio := some "x" } (login "bob@x.com" "bobpw" twinStorage).2).1
        = .ok true ∧
      getUsers (updateProfile { bio := some "x" } (login "bob@x.com" "bobpw" twinStorage).2).2
        = .ok [{ bob with bio := "x" }, bob] ∧
      bob.bio ≠ "x" := by
  decide

/-- C5, amended, at a concrete input: Carol, whose id no other record carries, logs
in and sets her bio. -/
theorem updateProfile_bio_after_login_witness :
    getUsers carolStorage = .ok [alice, carol] ∧
      (login "carol@x.com" "carolpw" carolStorage).1 = .ok (.success carol) ∧
      findIndex (fun u => u.id == carol.id) [alice, carol]
        = findIndex (fun u => u.email == "carol@x.com" && u.password == "carolpw")
            [alice, carol] ∧
      ∃ j : Nat,
        findIndex (fun u => u.email == "carol@x.com" && u.password == "carolpw")
            [alice, carol] = some j ∧
        [alice, carol][j]? = some carol ∧
        (updateProfile { bio := some "x" }
            (login "carol@x.com" "carolpw" carolStorage).2).1 = .ok true ∧
        getCurrentUser (updateProfile { bio := some "x" }
            (login "carol@x.com" "carolpw" carolStorage).2).2
          = .ok (some { carol with bio := "x" }) ∧
        getUsers (updateProfile { bio := some "x" }
            (login "carol@x.com" "carolpw" carolStorage).2).2
          = .ok ([alice, carol].set j { carol with bio := "x" }) ∧
        ([alice, carol].set j { carol with bio := "x" })[j]?
          = some { carol with bio := "x" } :=
  ⟨by decide, by decide, by decide,
    updateProfile_bio_after_login "carol@x.com" "carolpw" "x" carolStorage [alice, carol]
      carol (by decide) (by decide) (by decide)⟩

/-- C6 at a concrete input: a profile update before anybody has logged in. -/
theorem updateProfile_without_session_witness :
    getCurrentUser aliceStorage = .ok none ∧
      updateProfile { bio := some "x" } aliceStorage = (.ok false, aliceStorage) ∧
      getUsers (updateProfile { bio := some "x" } aliceStorage).2 = getUsers aliceStorage ∧
      getCurrentUser (updateProfile { bio := some "x" } aliceStorage).2 = .ok none :=
  ⟨by decide, updateProfile_without_session { bio := some "x" } aliceStorage (by decide)⟩

/-- C7 fails within one millisecond: Bob registers at the clock value at which Alice
did, `register` succeeds, and the new record has the id of Alice; ids that were
pairwise distinct are not so afterwards. -/
theorem register_id_counterexample :
    getUsers aliceStorage = .ok [alice] ∧
      (register 1000 "Bob Budd" "bob@x.com" "bobpw" aliceStorage).1 = .ok (.success bob) ∧
      bob.id = alice.id ∧
      ([alice].map User.id).Nodup ∧
      getUsers (register 1000 "Bob Budd" "bob@x.com" "bobpw" aliceStorage).2
        = .ok [alice, bob] ∧
      ¬ ([alice, bob].map User.id).Nodup := by
  decide

/-- C7, amended, at a concrete input: Carol registers one millisecond after Alice. -/
theorem register_id_fresh_witness :
    getUsers aliceStorage = .ok [alice] ∧
      (register 1001 "Carol Cole" "carol@x.com" "carolpw" aliceStorage).1
        = .ok (.success carol) ∧
      (∀ u ∈ [alice], u.id ≠ freshId 1001) ∧
      carol.id = freshId 1001 ∧
      (∀ u ∈ [alice], u.id ≠ carol.id) ∧
      getUsers (register 1001 "Carol Cole" "carol@x.com" "carolpw" aliceStorage).2
        = .ok ([alice] ++ [carol]) ∧
      (([alice].map User.id).Nodup → (([alice] ++ [carol]).map User.id).Nodup) :=
  ⟨by decide, by decide, by decide,
    register_id_fresh 1001 "Carol Cole" "carol@x.com" "carolpw" aliceStorage [alice] carol
      (by decide) (by decide) (by decide)⟩

/-- C8 fails for an argument with an `id` entry: the spread writes it over the id of
the session record. -/
theorem updateProfile_id_counterexample :
    getCurrentUser aliceSession = .ok (some alice) ∧
      alice.id = "1000" ∧
      getCurrentUser (updateProfile { id := some "7" } aliceSession).2
        = .ok (some { alice with id := "7" }) ∧
      ({ alice with id := "7" } : User).id ≠ alice.id := by
  decide

/-- C8, amended, at a concrete input: the profile form of Alice is saved. -/
theorem updateProfile_keeps_ids_witness :
    getCurrentUser aliceSession = .ok (some alice) ∧
      Except.map (List.map User.id)
          (getUsers (updateProfile { bio := some "x", profileCompleted := some true }
            aliceSession).2)
        = Except.map (List.map User.id) (getUsers aliceSession) ∧
      ∃ after : User,
        getCurrentUser (updateProfile { bio := some "x", profileCompleted := some true }
            aliceSession).2 = .ok (some after) ∧
        after.id = alice.id :=
  ⟨by decide,
    (updateProfile_keeps_ids { bio := some "x", profileCompleted := some true }
      aliceSession alice (by decide)).1,
    (updateProfile_keeps_ids { bio := some "x", profileCompleted := some true }
      aliceSession alice (by decide)).2 (Or.inl rfl)⟩

/-- C9 fails on stored text that is not JSON: `JSON.parse` throws and `getUsers`
returns nothing. -/
theorem getUsers_counterexample :
    getUsers brokenStorage = .error .syntaxError ∧ getUsers brokenStorage ≠ .ok [] := by
  decide

/-- C10 fails for a counter of zero, the value every new record has: the guard
`user.usage.daily > 0` keeps the dashboard from writing any percentage. -/
theorem dashboard_daily_counterexample :
    getCurrentUser aliceSession = .ok (some alice) ∧
      alice.usage.daily = 0 ∧
      dashboardUsage aliceSession true true = .ok none := by
  decide

/-- C10, amended, at a concrete input: a session record with three applications
used today. -/
theorem dashboard_daily_percent_witness :
    getCurrentUser { users := .json [alice],
                     session := .json { alice with usage := { daily := 3, weekly := 3, monthly := 3 } } }
        = .ok (some { alice with usage := { daily := 3, weekly := 3, monthly := 3 } }) ∧
      dashboardUsage { users := .json [alice],
                       session := .json { alice with usage := { daily := 3, weekly := 3, monthly := 3 } } }
          true true
        = .ok (some { width := percent 3, used := 3 }) ∧
      (percent 3).toRat = 60 :=
  ⟨rfl,
    (dashboard_daily_percent
      { users := .json [alice],
        session := .json { alice with usage := { daily := 3, weekly := 3, monthly := 3 } } }
      { alice with usage := { daily := 3, weekly := 3, monthly := 3 } } rfl (by decide)).1,
    (dashboard_daily_percent
      { users := .json [alice],
        session := .json { alice with usage := { daily := 3, weekly := 3, monthly := 3 } } }
      { alice with usage := { daily := 3, weekly := 3, monthly := 3 } } rfl (by decide)).2.2
      rfl⟩

end ClickApply
